import Mathlib

/-!
Verification of the AI-voice-enhancer backend (Flask app in `backend/app.py`
plus `config.py`) against its natural-language specification.

The Python program is shallowly embedded: pure helpers become Lean
functions; the two in-memory dictionaries (`processing_status` and
`completed_files`) become finite maps modelled as functions
`String → Option _`; the worker's side-effecting progress reporting
(`update_progress` call sites) becomes an explicit list of `Write`
records produced by each code path; branches whose outcome depends on
the outside world (imports succeeding, files existing on disk,
exceptions from the audio libraries) are driven by an explicit
environment of Booleans, one per branch point in the source.
Timestamps are natural-number seconds; Python's
`current_time - ts > 300` on non-negative clock values agrees with
truncated subtraction on `Nat`.
-/

namespace VoiceEnhancer

/-- The `stage` strings written via `update_progress` in `backend/app.py`:
`uploading`, `preparing`, `initializing`, `loading`, `model_loading`,
`processing`, `saving`, `complete`, `error`. -/
inductive Stage where
  | uploading
  | preparing
  | initializing
  | loading
  | modelLoading
  | processing
  | saving
  | complete
  | error
deriving DecidableEq

/-- A stage is terminal when it is `complete` or `error`. -/
def Stage.isTerminal : Stage → Bool
  | .complete => true
  | .error => true
  | _ => false

/-- One call to `update_progress`: the `(stage, progress, message)` triple
written into `processing_status[file_id]` (`backend/app.py` lines 79–90). -/
structure Write where
  stage : Stage
  progress : Nat
  message : String
deriving DecidableEq

/-- The three intensity bands (the strings "light"/"medium"/"strong"
used throughout `backend/app.py` and `config.py`). -/
inductive Level where
  | light
  | medium
  | strong
deriving DecidableEq

/-- `get_intensity_level` (`backend/app.py` lines 35–42):
`if intensity_value <= 3: "light" elif intensity_value <= 7: "medium"
else: "strong"`. -/
def get_intensity_level (intensity_value : Int) : Level :=
  if intensity_value ≤ 3 then .light
  else if intensity_value ≤ 7 then .medium
  else .strong

/-- One entry of the `configs` dict in `get_processing_config`
(`backend/app.py` lines 44–72). -/
structure ProcessingConfig where
  description : String
  processing_time : String
  noise_reduction : Int
  normalization : Bool
  compression : Bool
  eq_boost : Int
deriving DecidableEq

/-- `get_processing_config` (`backend/app.py` lines 44–72). The Python
`configs.get(level, configs["light"])` default branch is unreachable here
because the argument is already one of the three levels. -/
def get_processing_config : Level → ProcessingConfig
  | .light => ⟨"Light enhancement (2-3 seconds)", "2-3 seconds", 5, true, false, 2⟩
  | .medium => ⟨"Balanced enhancement (3-4 seconds)", "3-4 seconds", 10, true, true, 5⟩
  | .strong => ⟨"Maximum enhancement (4-5 seconds)", "4-5 seconds", 15, true, true, 8⟩

/-- One entry of the `model_configs` dict in `get_clearvoice_model_config`
(`backend/app.py` lines 228–247). -/
structure ModelConfig where
  model_name : String
  description : String
  processing_time : String
deriving DecidableEq

/-- `get_clearvoice_model_config` (`backend/app.py` lines 228–247). -/
def get_clearvoice_model_config : Level → ModelConfig
  | .light => ⟨"FRCRN_SE_16K", "Light AI enhancement (5-10 seconds)", "5-10 seconds"⟩
  | .medium => ⟨"FRCRN_SE_16K", "Balanced AI enhancement (5-10 seconds)", "5-10 seconds"⟩
  | .strong => ⟨"MossFormer2_SE_48K", "Maximum AI enhancement (10-15 seconds)", "10-15 seconds"⟩

/-- One entry of `Config.MODEL_CONFIGS` (`config.py` lines 20–36). -/
structure ConfigModelEntry where
  model_name : String
  description : String
  intensity_range : Int × Int
deriving DecidableEq

/-- `Config.MODEL_CONFIGS` (`config.py` lines 20–36). -/
def Config.MODEL_CONFIGS : Level → ConfigModelEntry
  | .light => ⟨"FRCRN_SE_16K", "Fast, lightweight processing", (1, 3)⟩
  | .medium => ⟨"MossFormer2_SE_48K", "Balanced quality and speed", (4, 7)⟩
  | .strong => ⟨"MossFormerGAN_SE_16K", "Best quality, more aggressive", (8, 10)⟩

/-- `Config.ALLOWED_EXTENSIONS` (`config.py` lines 15–17), each name as
its character list. -/
def ALLOWED_EXTENSIONS : List (List Char) :=
  ["mp3", "wav", "flac", "ogg", "aac", "aiff"].map String.data

/-- ASCII lower-casing of one character, which is all `str.lower()` does
on the extension strings compared against `ALLOWED_EXTENSIONS`. -/
def asciiLower (c : Char) : Char :=
  if 65 ≤ c.toNat && c.toNat ≤ 90 then Char.ofNat (c.toNat + 32) else c

/-- The characters after the last `'.'` of a filename: Python's
`filename.rsplit('.', 1)[1]` when the name contains a dot. -/
def extensionChars (l : List Char) : List Char :=
  (l.reverse.takeWhile (fun c => c ≠ '.')).reverse

/-- `allowed_file` (`backend/app.py` lines 74–77):
`'.' in filename and filename.rsplit('.', 1)[1].lower() in ALLOWED_EXTENSIONS`,
expressed over the filename's character list. -/
def allowed_file (filename : String) : Bool :=
  filename.data.contains '.' &&
    ALLOWED_EXTENSIONS.contains ((extensionChars filename.data).map asciiLower)

/-- The value stored at `processing_status[file_id]` by `update_progress`
(`backend/app.py` lines 84–89): stage, progress, message and a
`time.time()` timestamp (modelled in whole seconds). -/
structure StatusRec where
  stage : Stage
  progress : Nat
  message : String
  timestamp : Nat
deriving DecidableEq

/-- The in-memory dict `processing_status` (`backend/app.py` line 32),
as a finite map on ids. -/
abbrev ProgressMap := String → Option StatusRec

/-- `update_progress` (`backend/app.py` lines 79–90). The Python code
first inserts an empty dict when `file_id` is absent, then
`dict.update`s all four keys; since the record consists of exactly those
four keys, the net effect in either branch is that `file_id` now maps to
the full fresh record and every other id is untouched. -/
def update_progress (s : ProgressMap) (file_id : String) (stage : Stage)
    (progress : Nat) (message : String) (now : Nat) : ProgressMap :=
  fun id => if id = file_id then some ⟨stage, progress, message, now⟩ else s id

/-- The empty `processing_status` store. -/
def emptyProgress : ProgressMap := fun _ => none

/-- The value stored at `completed_files[file_id]` by `process_in_background`
(`backend/app.py` lines 459–465). -/
structure CompletedRec where
  timestamp : Nat
  file_id : String
  original_file : String
  enhanced_file : String
  status : String
deriving DecidableEq

/-- The in-memory dict `completed_files` (`backend/app.py` line 33). -/
abbrev CompletedMap := String → Option CompletedRec

/-- The pair of global dicts held by the Flask process. -/
structure AppState where
  processing_status : ProgressMap
  completed_files : CompletedMap

/-- `cleanup_old_progress_data` (`backend/app.py` lines 92–103): drop
`processing_status` entries whose timestamp is more than 300 seconds old
and `completed_files` entries more than 120 seconds old, both measured
against `current_time` (here the parameter `now`). -/
def cleanup_old_progress_data (now : Nat) (st : AppState) : AppState where
  processing_status := fun id =>
    match st.processing_status id with
    | some r => if now - r.timestamp > 300 then none else some r
    | none => none
  completed_files := fun id =>
    match st.completed_files id with
    | some c => if now - c.timestamp > 120 then none else some c
    | none => none

/-- The three response shapes of `GET /api/progress/<file_id>`
(`backend/app.py` lines 360–377): the stored status dict, the synthetic
"complete" record built from `completed_files`, or a 404. -/
inductive ProgressResponse where
  | record (r : StatusRec)
  | completedRecord (timestamp : Nat)
  | notFound
deriving DecidableEq

/-- `get_progress` (`backend/app.py` lines 360–377): run the cleanup
sweep, then look the id up first in `processing_status`, then in
`completed_files`, else 404. -/
def get_progress (st : AppState) (now : Nat) (file_id : String) : ProgressResponse :=
  let st := cleanup_old_progress_data now st
  match st.processing_status file_id with
  | some r => .record r
  | none =>
    match st.completed_files file_id with
    | some c => .completedRecord c.timestamp
    | none => .notFound

/-- The environment of `GET /api/result/<file_id>` (`backend/app.py`
lines 495–524): the `completed_files` dict plus what the two glob calls
find on disk. The processed glob pattern is exactly
`{file_id}_enhanced.wav`; the original glob is `{file_id}_original.*`,
whose matched name is abstracted as `originalName`. -/
structure ResultEnv where
  completed_files : CompletedMap
  processedExists : String → Bool
  originalExists : String → Bool
  originalName : String → String

/-- The two response shapes of `GET /api/result/<file_id>`: the success
JSON, or the single 404 body
`{"error": "Processing not complete or file not found"}`. -/
inductive ResultResponse where
  | success (file_id original_file enhanced_file : String)
  | notFound
deriving DecidableEq

/-- `get_result` (`backend/app.py` lines 495–524): the success JSON is
returned only when the id is in `completed_files` AND the processed glob
finds a file AND the original glob finds a file; every other path falls
through to the one 404 return at line 520. `processing_status` is never
consulted. -/
def get_result (env : ResultEnv) (file_id : String) : ResultResponse :=
  match env.completed_files file_id with
  | some _ =>
    if env.processedExists file_id then
      if env.originalExists file_id then
        .success file_id (env.originalName file_id) (file_id ++ "_enhanced.wav")
      else .notFound
    else .notFound
  | none => .notFound

/-- The `intensity` form field of `POST /api/process` as seen by
`int(request.form.get('intensity', 5))` (`backend/app.py` line 388):
absent (defaulted to 5), parsable to some integer, or a string on which
`int()` raises `ValueError`. -/
inductive IntensityForm where
  | absent
  | parsable (n : Int)
  | unparsable
deriving DecidableEq

/-- The parts of an incoming `POST /api/process` request that the
validation code inspects. -/
structure SubmitRequest where
  hasAudio : Bool
  filename : String
  intensity : IntensityForm
deriving DecidableEq

/-- The response shapes of the synchronous part of `POST /api/process`:
400 validation errors, the generic 500 from the outer `except` handler
(line 493), or the 200 accept that spawns the worker. -/
inductive SubmitResponse where
  | badRequest (msg : String)
  | serverError
  | accepted (intensity_level : Level)
deriving DecidableEq

/-- HTTP status code of each `SubmitResponse`. -/
def SubmitResponse.statusCode : SubmitResponse → Nat
  | .badRequest _ => 400
  | .serverError => 500
  | .accepted _ => 200

/-- The validation portion of `process_audio` (`backend/app.py` lines
379–394 and 491–493), in source order: missing `audio` part → 400;
`int(request.form.get('intensity', 5))` — a `ValueError` here propagates
to the outer `except` and yields 500; empty filename → 400; disallowed
extension → 400; otherwise the request is accepted with the band
`get_intensity_level(intensity)` (computed at line 430) and the worker is
spawned. No range check is ever applied to the parsed integer. The
file-save step (lines 416–425) is outside the validation logic and is
elided here. -/
def process_audio_submit (req : SubmitRequest) : SubmitResponse :=
  if !req.hasAudio then .badRequest "No audio file provided"
  else
    match req.intensity with
    | .unparsable => .serverError
    | f =>
      let n : Int := match f with | .parsable m => m | _ => 5
      if req.filename = "" then .badRequest "No file selected"
      else if !allowed_file req.filename then .badRequest "File type not supported"
      else .accepted (get_intensity_level n)

/-- The branch outcomes of one worker run that depend on the outside
world, one Boolean per branch point in `backend/app.py`:
* `saveOk` — `file.save(input_path)` did not raise (line 417);
* `clearvoiceImport` — `from clearvoice import ClearVoice` succeeded (line 157);
* `modelLoadOk` — `ClearVoice(...)` construction did not raise (line 185);
* `aiProcessOk` — `cv(input_path, output_path)` did not raise (line 196);
* `aiOutExists` / `aiOutSize` — `os.path.exists` / `os.path.getsize` of
  the output after the AI run (lines 209–210);
* `pydubImport` — `from pydub import AudioSegment` succeeded (line 256);
* `audioLoadOk` — `AudioSegment.from_file` did not raise (line 264);
* `enhanceSteps` — how many of the six `update_progress` checkpoints
  inside `apply_audio_enhancement` ran before its internal `except`
  fired (6 or more = the whole body ran);
* `exportOk` — `enhanced_audio.export` did not raise (line 279);
* `fbOutExists` / `fbOutSize` — output check after the fallback export
  (lines 286–287);
* `bgCrash` — the catch-all `except` of `process_in_background` fired
  (lines 472–474). -/
structure Env where
  saveOk : Bool
  clearvoiceImport : Bool
  modelLoadOk : Bool
  aiProcessOk : Bool
  aiOutExists : Bool
  aiOutSize : Nat
  pydubImport : Bool
  audioLoadOk : Bool
  enhanceSteps : Nat
  exportOk : Bool
  fbOutExists : Bool
  fbOutSize : Nat
  bgCrash : Bool

/-- The six `update_progress` checkpoints of `apply_audio_enhancement`
(`backend/app.py` lines 105–148), in source order. Its internal `except`
returns the original audio without writing an error, so a run that fails
midway has written some prefix of this list. -/
def apply_audio_enhancement_writes (enhanceSteps : Nat) : List Write :=
  List.take enhanceSteps
    [⟨.processing, 30, "Applying audio normalization..."⟩,
     ⟨.processing, 40, "Reducing background noise..."⟩,
     ⟨.processing, 50, "Applying dynamic compression..."⟩,
     ⟨.processing, 60, "Enhancing frequency response..."⟩,
     ⟨.processing, 70, "Applying final adjustments..."⟩,
     ⟨.processing, 80, "Audio enhancement complete!"⟩]

/-- The output-verification write of `process_audio_super_fast`
(`backend/app.py` lines 209–218): if `os.path.exists(output_path)` the
stage becomes `complete` with progress 100 (the file size appears only
in the message); otherwise `error` with progress 0 and message
`'Output file not generated'`. No size check is performed. -/
def verify_output (outExists : Bool) (fileSize : Nat) : Write :=
  if outExists then
    ⟨.complete, 100, "AI processing complete! Output: " ++ toString fileSize ++ " bytes"⟩
  else
    ⟨.error, 0, "Output file not generated"⟩

/-- The output-verification write of `process_audio_pydub_fallback`
(`backend/app.py` lines 285–294), identical to the AI one except for the
success message. -/
def verify_output_fallback (outExists : Bool) (fileSize : Nat) : Write :=
  if outExists then
    ⟨.complete, 100, "Pydub enhancement complete! Output: " ++ toString fileSize ++ " bytes"⟩
  else
    ⟨.error, 0, "Output file not generated"⟩

/-- The `update_progress` writes performed by one run of
`process_audio_pydub_fallback` (`backend/app.py` lines 249–300), in
source order. Exceptions from `AudioSegment.from_file` and from
`export` are caught by the function's outer `except` (line 296), which
writes `('error', 0, "Pydub fallback error: ...")`; the exception text
appended to that message is abbreviated away. -/
def pydub_fallback_writes (env : Env) : List Write :=
  let w0 : List Write := [⟨.processing, 60, "Using pydub enhancement..."⟩]
  if !env.pydubImport then
    w0 ++ [⟨.error, 0, "Audio processing library not available"⟩]
  else if !env.audioLoadOk then
    w0 ++ [⟨.error, 0, "Pydub fallback error"⟩]
  else
    let w1 := w0 ++ [⟨.processing, 70, "Applying audio enhancement..."⟩]
      ++ apply_audio_enhancement_writes env.enhanceSteps
      ++ [⟨.saving, 90, "Saving enhanced audio..."⟩]
    if !env.exportOk then
      w1 ++ [⟨.error, 0, "Pydub fallback error"⟩]
    else
      w1 ++ [verify_output_fallback env.fbOutExists env.fbOutSize]

/-- The boolean returned by `process_audio_pydub_fallback`: `True`
exactly when pydub imported, the audio loaded, the export ran and the
output file exists. -/
def pydub_fallback_success (env : Env) : Bool :=
  env.pydubImport && env.audioLoadOk && env.exportOk && env.fbOutExists

/-- The `update_progress` writes performed by one run of
`process_audio_super_fast` (`backend/app.py` lines 150–226), in source
order. Each of the three primary failures — import failure (line 160),
model-load exception (line 187), processing exception (line 198) —
tail-calls `process_audio_pydub_fallback`. -/
def super_fast_writes (env : Env) : List Write :=
  let w0 : List Write := [⟨.initializing, 10, "Initializing AI-powered processing..."⟩]
  if !env.clearvoiceImport then
    w0 ++ pydub_fallback_writes env
  else
    let w1 := w0 ++ [⟨.loading, 20, "Loading audio file..."⟩,
                     ⟨.modelLoading, 30, "Loading AI model for speech enhancement..."⟩]
    if !env.modelLoadOk then
      w1 ++ pydub_fallback_writes env
    else
      let w2 := w1 ++ [⟨.processing, 50, "Processing audio with AI model..."⟩]
      if !env.aiProcessOk then
        w2 ++ pydub_fallback_writes env
      else
        w2 ++ [⟨.saving, 90, "Saving AI-enhanced audio..."⟩,
               verify_output env.aiOutExists env.aiOutSize]

/-- The boolean returned by `process_audio_super_fast`: the fallback's
result when any primary step failed, else whether the AI output file
exists. -/
def super_fast_success (env : Env) : Bool :=
  if !env.clearvoiceImport || !env.modelLoadOk || !env.aiProcessOk then
    pydub_fallback_success env
  else
    env.aiOutExists

/-- All `update_progress` writes for one job, from the synchronous part
of `process_audio` (lines 406, 424, 427) through the background thread
`process_in_background` (lines 437–474), in order. After the worker
returns, the thread writes `('complete', 100, ...)` on success (line
458) or `('error', 0, ...)` on failure (line 470); its catch-all
`except` writes `('error', 0, 'Unexpected error: ...')` (line 474). -/
def process_audio_run (env : Env) : List Write :=
  let w0 : List Write := [⟨.uploading, 5, "Saving uploaded file..."⟩]
  if !env.saveOk then
    w0 ++ [⟨.error, 0, "Failed to save uploaded file"⟩]
  else
    w0 ++ [⟨.preparing, 15, "Preparing super-fast processing..."⟩]
      ++ super_fast_writes env
      ++ (if env.bgCrash then [⟨.error, 0, "Unexpected error"⟩]
          else if super_fast_success env then
            [⟨.complete, 100, "Processing completed successfully!"⟩]
          else
            [⟨.error, 0, "Processing failed. Please try again."⟩])

/-- The writes of a trace that precede its first terminal-stage write. -/
def writesBeforeTerminal (ws : List Write) : List Write :=
  ws.takeWhile (fun w => ! w.stage.isTerminal)

/-- The monotonicity property claimed by the spec: among the writes made
while the stage is still non-terminal, no later write carries a smaller
progress value than an earlier one. -/
abbrev ProgressMonotone (ws : List Write) : Prop :=
  List.Pairwise (· ≤ ·) ((writesBeforeTerminal ws).map Write.progress)

/-! ## Theorems -/

/-- C2: `get_intensity_level` is total on the integers and maps every
value ≤ 3 to the light band, every value in 4–7 to the medium band, and
every value ≥ 8 to the strong band; out-of-range integers are thereby
clamped into the nearest band by the boundary comparisons, never
rejected. -/
theorem get_intensity_level_bands (n : Int) :
    (n ≤ 3 → get_intensity_level n = .light) ∧
    (4 ≤ n → n ≤ 7 → get_intensity_level n = .medium) ∧
    (8 ≤ n → get_intensity_level n = .strong) := by
  unfold get_intensity_level
  refine ⟨fun h => ?_, fun h4 h7 => ?_, fun h => ?_⟩
  · rw [if_pos h]
  · rw [if_neg (by omega), if_pos h7]
  · rw [if_neg (by omega), if_neg (by omega)]

/-- Witness for C2 at the boundary and out-of-range inputs: 3 is light,
4 is medium, 9 is strong, −5 clamps to light, 100 clamps to strong. -/
theorem get_intensity_level_bands_witness :
    get_intensity_level 3 = .light ∧ get_intensity_level 4 = .medium ∧
      get_intensity_level 9 = .strong ∧ get_intensity_level (-5) = .light ∧
      get_intensity_level 100 = .strong :=
  ⟨(get_intensity_level_bands 3).1 (by decide),
   (get_intensity_level_bands 4).2.1 (by decide) (by decide),
   (get_intensity_level_bands 9).2.2 (by decide),
   (get_intensity_level_bands (-5)).1 (by decide),
   (get_intensity_level_bands 100).2.2 (by decide)⟩

/-- C10 counterexample: on the medium band `config.py` assigns
`MossFormer2_SE_48K` while `backend/app.py` uses `FRCRN_SE_16K`, so the
two band-to-model mappings are not equivalent. -/
theorem model_maps_differ_counterexample :
    (Config.MODEL_CONFIGS .medium).model_name = "MossFormer2_SE_48K" ∧
    (get_clearvoice_model_config .medium).model_name = "FRCRN_SE_16K" ∧
    (Config.MODEL_CONFIGS .medium).model_name ≠
      (get_clearvoice_model_config .medium).model_name := by
  decide

/-- C10 (amended): the two band-to-model mappings agree only on the
light band (both `FRCRN_SE_16K`); for medium `config.py` assigns
`MossFormer2_SE_48K` but `backend/app.py` uses `FRCRN_SE_16K`, and for
strong `config.py` assigns `MossFormerGAN_SE_16K` but `backend/app.py`
uses `MossFormer2_SE_48K`. -/
theorem model_maps_agree_only_on_light :
    (Config.MODEL_CONFIGS .light).model_name =
      (get_clearvoice_model_config .light).model_name ∧
    (Config.MODEL_CONFIGS .light).model_name = "FRCRN_SE_16K" ∧
    (Config.MODEL_CONFIGS .medium).model_name = "MossFormer2_SE_48K" ∧
    (get_clearvoice_model_config .medium).model_name = "FRCRN_SE_16K" ∧
    (Config.MODEL_CONFIGS .strong).model_name = "MossFormerGAN_SE_16K" ∧
    (get_clearvoice_model_config .strong).model_name = "MossFormer2_SE_48K" := by
  decide

/-- C8 counterexample: calling `update_progress` with an id absent from
`processing_status` is not a no-op and does not fail — it inserts a
fresh record for that id. -/
theorem update_progress_inserts_counterexample :
    emptyProgress "job" = none ∧
      (update_progress emptyProgress "job" .uploading 5 "Saving uploaded file..." 42)
          "job" =
        some ⟨.uploading, 5, "Saving uploaded file...", 42⟩ := by
  decide

/-- C8 (amended): `update_progress` is an upsert: whether or not the id
is present it stores the full fresh record (stage, progress, message and
the current timestamp) under that id, leaving every other id
untouched. For a present id this overwrites the mutable fields and bumps
the timestamp, as the claim states; for an absent id it inserts rather
than no-op or fail. -/
theorem update_progress_upsert (s : ProgressMap) (file_id : String) (stage : Stage)
    (progress : Nat) (message : String) (now : Nat) :
    (update_progress s file_id stage progress message now) file_id =
      some ⟨stage, progress, message, now⟩ ∧
    ∀ id, id ≠ file_id →
      (update_progress s file_id stage progress message now) id = s id := by
  refine ⟨by simp [update_progress], fun id hid => by simp [update_progress, hid]⟩

/-- Witness for C8 (amended) at a concrete store and ids. -/
theorem update_progress_upsert_witness :
    (update_progress emptyProgress "a" .processing 50 "m" 7) "b" = emptyProgress "b" :=
  (update_progress_upsert emptyProgress "a" .processing 50 "m" 7).2 "b" (by decide)

/-- C9 counterexample: a submission with a valid file but an unparseable
intensity gets the generic 500 response (the `ValueError` from `int()`
escapes to the outer `except`), not a synchronous 4xx ValidationError;
and an out-of-range intensity (999) is not rejected at all — it is
accepted and clamped into the strong band. -/
theorem submit_validation_counterexample :
    process_audio_submit ⟨true, "voice.wav", .unparsable⟩ = .serverError ∧
    (process_audio_submit ⟨true, "voice.wav", .unparsable⟩).statusCode = 500 ∧
    ¬(400 ≤ (process_audio_submit ⟨true, "voice.wav", .unparsable⟩).statusCode ∧
        (process_audio_submit ⟨true, "voice.wav", .unparsable⟩).statusCode < 500) ∧
    process_audio_submit ⟨true, "voice.wav", .parsable 999⟩ = .accepted .strong := by
  decide

/-- C9 (amended): a missing file, an empty filename and a disallowed
extension each return a synchronous 400 ValidationError; an unparseable
intensity instead raises inside `int()` and is answered by the generic
handler with status 500; an out-of-range integer intensity is never
rejected — the submission is accepted and the intensity is clamped into
a band by `get_intensity_level`. -/
theorem submit_validation (req : SubmitRequest) :
    (req.hasAudio = false →
      process_audio_submit req = .badRequest "No audio file provided") ∧
    (req.hasAudio = true → req.intensity = .unparsable →
      (process_audio_submit req).statusCode = 500) ∧
    (∀ n : Int, req.hasAudio = true → req.intensity = .parsable n →
      req.filename = "" → process_audio_submit req = .badRequest "No file selected") ∧
    (∀ n : Int, req.hasAudio = true → req.intensity = .parsable n →
      req.filename ≠ "" → allowed_file req.filename = false →
      process_audio_submit req = .badRequest "File type not supported") ∧
    (∀ n : Int, req.hasAudio = true → req.intensity = .parsable n →
      req.filename ≠ "" → allowed_file req.filename = true →
      process_audio_submit req = .accepted (get_intensity_level n)) := by
  obtain ⟨ha, fn, it⟩ := req
  refine ⟨fun h => ?_, fun h hu => ?_, fun n h hp hf => ?_, fun n h hp hf hext => ?_,
    fun n h hp hf hext => ?_⟩ <;>
    simp_all [process_audio_submit, SubmitResponse.statusCode]

/-- Witness for C9 (amended): the out-of-range intensity 999 is
accepted with the strong band. -/
theorem submit_validation_witness :
    process_audio_submit ⟨true, "voice.wav", .parsable 999⟩ =
      .accepted (get_intensity_level 999) :=
  (submit_validation ⟨true, "voice.wav", .parsable 999⟩).2.2.2.2 999 rfl rfl
    (by decide) (by decide)

/-- C5 counterexample: the post-run verification checks only
`os.path.exists`; a zero-byte output file (exists, size 0) is marked
`complete` with progress 100 on both the AI and the fallback path, so
"non-empty (size > 0)" is not part of the check. -/
theorem verify_output_zero_byte_counterexample :
    (verify_output true 0).stage = .complete ∧
    (verify_output true 0).progress = 100 ∧
    (verify_output_fallback true 0).stage = .complete ∧
    ¬ (0 : Nat) > 0 := by
  decide

/-- C5 (amended): after the enhancement collaborator returns, the worker
marks `complete` (progress 100) exactly when the output file exists,
regardless of its size — a zero-byte output is accepted; when it does
not exist, it writes stage `error`, progress 0, with the message
"Output file not generated" (not "output not generated" as the spec
quotes it). The same holds on the pydub fallback path. -/
theorem verify_output_exists_only (outExists : Bool) (fileSize : Nat) :
    ((verify_output outExists fileSize).stage = .complete ↔ outExists = true) ∧
    ((verify_output_fallback outExists fileSize).stage = .complete ↔ outExists = true) ∧
    (outExists = true → (verify_output outExists fileSize).progress = 100 ∧
      (verify_output_fallback outExists fileSize).progress = 100) ∧
    (outExists = false →
      verify_output outExists fileSize = ⟨.error, 0, "Output file not generated"⟩ ∧
      verify_output_fallback outExists fileSize =
        ⟨.error, 0, "Output file not generated"⟩) := by
  cases outExists <;> simp [verify_output, verify_output_fallback]

/-- Witness for C5 (amended) at a missing output file. -/
theorem verify_output_exists_only_witness :
    verify_output false 0 = ⟨.error, 0, "Output file not generated"⟩ ∧
      verify_output_fallback false 0 = ⟨.error, 0, "Output file not generated"⟩ :=
  (verify_output_exists_only false 0).2.2.2 rfl

/-- An in-progress status record for the job `"job1"`. -/
def recC3 : StatusRec := ⟨.processing, 50, "Processing audio with AI model...", 10⟩

/-- A `processing_status` store containing only the in-progress `"job1"`. -/
def psC3 : ProgressMap := fun id => if id = "job1" then some recC3 else none

/-- A result environment in which no job has completed and nothing has
been written to disk: `"job1"` has been submitted (it is in
`processing_status`) while `"ghost"` never existed. -/
def resultEnvC3 : ResultEnv where
  completed_files := fun _ => none
  processedExists := fun _ => false
  originalExists := fun _ => false
  originalName := fun _ => ""

/-- C3 counterexample: `"job1"` exists and is still running (it is in
`processing_status`), `"ghost"` never existed, yet `get_result` answers
both with the very same 404 `notFound` response — there is no NotReady
signal distinct from JobNotFound. -/
theorem get_result_not_distinct_counterexample :
    psC3 "job1" = some recC3 ∧ psC3 "ghost" = none ∧
    get_result resultEnvC3 "job1" = .notFound ∧
    get_result resultEnvC3 "job1" = get_result resultEnvC3 "ghost" := by
  decide

/-- C3 (amended): `get_result` returns the output reference exactly when
the id is in `completed_files` and both the processed and the original
file are found on disk; in every other case — including a job that
exists but has not completed — it returns the one undifferentiated 404
`notFound` response, so a still-running job is not distinguishable from
an id that never existed. -/
theorem get_result_complete_iff (env : ResultEnv) (file_id : String) :
    (((env.completed_files file_id).isSome ∧ env.processedExists file_id = true ∧
        env.originalExists file_id = true) →
      get_result env file_id =
        .success file_id (env.originalName file_id) (file_id ++ "_enhanced.wav")) ∧
    (¬((env.completed_files file_id).isSome ∧ env.processedExists file_id = true ∧
        env.originalExists file_id = true) →
      get_result env file_id = .notFound) := by
  unfold get_result
  cases h : env.completed_files file_id <;>
    cases hp : env.processedExists file_id <;>
    cases ho : env.originalExists file_id <;>
    simp [h, hp, ho]

/-- A result environment whose only completed job `"done"` has both
files on disk. -/
def resultEnvDone : ResultEnv where
  completed_files := fun id =>
    if id = "done" then some ⟨0, "done", "done_original.wav", "done_enhanced.wav", "complete"⟩
    else none
  processedExists := fun id => id == "done"
  originalExists := fun id => id == "done"
  originalName := fun _ => "done_original.wav"

/-- Witness for C3 (amended): the completed job `"done"` gets its output
reference. -/
theorem get_result_complete_iff_witness :
    get_result resultEnvDone "done" =
      .success "done" "done_original.wav" ("done" ++ "_enhanced.wav") :=
  (get_result_complete_iff resultEnvDone "done").1 (by decide)

/-- C7: if every record the Job Store still holds for an id is older
than its retention window at the time of the call — more than 300
seconds for the `processing_status` record of a terminal job, more than
120 seconds for the `completed_files` record — then `get_progress`
(which runs the expiry sweep before the lookup) no longer finds the job
and returns the 404 JobNotFound response. -/
theorem stale_terminal_job_evicted (st : AppState) (now : Nat) (id : String)
    (hs : ∀ r, st.processing_status id = some r →
      r.stage.isTerminal = true ∧ now - r.timestamp > 300)
    (hc : ∀ c, st.completed_files id = some c → now - c.timestamp > 120) :
    get_progress st now id = .notFound := by
  unfold get_progress
  simp only [cleanup_old_progress_data]
  cases hps : st.processing_status id with
  | some r =>
    cases hcf : st.completed_files id with
    | some c => simp [(hs r hps).2, hc c hcf]
    | none => simp [(hs r hps).2]
  | none =>
    cases hcf : st.completed_files id with
    | some c => simp [hc c hcf]
    | none => simp

/-- An app state holding one terminal job `"old"` last updated at time 0
in both stores. -/
def staleState : AppState where
  processing_status := fun id =>
    if id = "old" then some ⟨.complete, 100, "Processing completed successfully!", 0⟩
    else none
  completed_files := fun id =>
    if id = "old" then some ⟨0, "old", "o.wav", "e.wav", "complete"⟩ else none

/-- Witness for C7: at time 500 the terminal job `"old"` (stale by both
windows) is gone. -/
theorem stale_terminal_job_evicted_witness :
    get_progress staleState 500 "old" = .notFound :=
  stale_terminal_job_evicted staleState 500 "old"
    (by
      intro r hr
      simp [staleState] at hr
      subst hr
      exact ⟨rfl, by decide⟩)
    (by
      intro c hcf
      simp [staleState] at hcf
      subst hcf
      decide)

/-- Every checkpoint of `apply_audio_enhancement` is a non-terminal
`processing` write. -/
theorem enhance_writes_processing (k : Nat) :
    ∀ w ∈ apply_audio_enhancement_writes k, w.stage = .processing := by
  intro w hw
  unfold apply_audio_enhancement_writes at hw
  have hm := List.take_subset k _ hw
  fin_cases hm <;> rfl

/-- The per-write invariant of claim C6: a `complete` write carries
progress 100 and an `error` write carries progress 0. -/
def writeOk (w : Write) : Prop :=
  (w.stage = .complete → w.progress = 100) ∧ (w.stage = .error → w.progress = 0)

/-- A write whose stage is `processing` vacuously satisfies `writeOk`. -/
theorem writeOk_of_processing (w : Write) (h : w.stage = .processing) : writeOk w := by
  constructor <;> intro h2 <;> rw [h2] at h <;> cases h

/-- Every write of the pydub fallback satisfies `writeOk`. -/
theorem pydub_writeOk (env : Env) : ∀ w ∈ pydub_fallback_writes env, writeOk w := by
  intro w hw
  have henh := enhance_writes_processing env.enhanceSteps
  cases hpy : env.pydubImport <;> cases hld : env.audioLoadOk <;>
    cases hex : env.exportOk <;> cases hfb : env.fbOutExists <;>
    simp [pydub_fallback_writes, hpy, hld, hex, hfb, verify_output_fallback,
      List.mem_append, List.mem_cons] at hw <;>
  casesm* _ ∨ _ <;>
  first
    | exact writeOk_of_processing w (henh w (by assumption))
    | (subst_vars; constructor <;> intro h2 <;> (try cases h2) <;> rfl)

/-- Every write of `process_audio_super_fast` satisfies `writeOk`. -/
theorem super_writeOk (env : Env) : ∀ w ∈ super_fast_writes env, writeOk w := by
  intro w hw
  have hpy := pydub_writeOk env
  cases hcv : env.clearvoiceImport <;> cases hml : env.modelLoadOk <;>
    cases hai : env.aiProcessOk <;> cases hoe : env.aiOutExists <;>
    simp [super_fast_writes, hcv, hml, hai, hoe, verify_output,
      List.mem_append, List.mem_cons] at hw <;>
  casesm* _ ∨ _ <;>
  first
    | exact hpy w (by assumption)
    | (subst_vars; constructor <;> intro h2 <;> (try cases h2) <;> rfl)

/-- Every write of the whole submission-plus-worker run satisfies
`writeOk`. -/
theorem run_writeOk (env : Env) : ∀ w ∈ process_audio_run env, writeOk w := by
  intro w hw
  have hsf := super_writeOk env
  cases hsa : env.saveOk <;> cases hbg : env.bgCrash <;>
    cases hsu : super_fast_success env <;>
    simp [process_audio_run, hsa, hbg, hsu, List.mem_append, List.mem_cons] at hw <;>
  casesm* _ ∨ _ <;>
  first
    | exact hsf w (by assumption)
    | (subst_vars; constructor <;> intro h2 <;> (try cases h2) <;> rfl)

/-- C6: along every code path, whenever a status write carries stage
`complete` its progress is 100, and whenever it carries stage `error`
its progress is 0. -/
theorem terminal_write_progress (env : Env) (w : Write)
    (hw : w ∈ process_audio_run env) :
    (w.stage = .complete → w.progress = 100) ∧ (w.stage = .error → w.progress = 0) :=
  run_writeOk env w hw

/-- The environment of a fully successful AI run. -/
def envAI : Env where
  saveOk := true
  clearvoiceImport := true
  modelLoadOk := true
  aiProcessOk := true
  aiOutExists := true
  aiOutSize := 2000
  pydubImport := true
  audioLoadOk := true
  enhanceSteps := 0
  exportOk := true
  fbOutExists := true
  fbOutSize := 0
  bgCrash := false

/-- Witness for C6 at the final write of a fully successful AI run. -/
theorem terminal_write_progress_witness :
    ((⟨.complete, 100, "Processing completed successfully!"⟩ : Write).stage = .complete →
      (⟨.complete, 100, "Processing completed successfully!"⟩ : Write).progress = 100) ∧
    ((⟨.complete, 100, "Processing completed successfully!"⟩ : Write).stage = .error →
      (⟨.complete, 100, "Processing completed successfully!"⟩ : Write).progress = 0) :=
  terminal_write_progress envAI ⟨.complete, 100, "Processing completed successfully!"⟩
    (by decide)

/-- The environment of a run in which the ClearerVoice import fails and
the pydub fallback then succeeds end-to-end. -/
def envC1 : Env where
  saveOk := true
  clearvoiceImport := false
  modelLoadOk := true
  aiProcessOk := true
  aiOutExists := true
  aiOutSize := 0
  pydubImport := true
  audioLoadOk := true
  enhanceSteps := 6
  exportOk := true
  fbOutExists := true
  fbOutSize := 1000
  bgCrash := false

/-- C1 counterexample: on a successful fallback run the progress values
written while the stage is still non-terminal are
5, 15, 10, 60, 70, 30, 40, 50, 60, 70, 80, 90 — the submission writes
15 (`preparing`) and the worker then writes 10 (`initializing`), and the
fallback's checkpoint 70 is followed by `apply_audio_enhancement`
writing 30 — so the claimed monotonicity fails. -/
theorem progress_not_monotone_counterexample :
    ¬ ProgressMonotone (process_audio_run envC1) ∧
    (writesBeforeTerminal (process_audio_run envC1)).map Write.progress =
      [5, 15, 10, 60, 70, 30, 40, 50, 60, 70, 80, 90] := by
  decide

/-- C1 (amended): progress monotonicity fails on the code as claimed —
the worker's first write (10, `initializing`) undercuts the submission's
last write (15, `preparing`), and every pydub-fallback execution writes
70 and then 30 inside `apply_audio_enhancement` — but it does hold for
the worker's own write sequence along a fully successful AI path, which
is 10, 20, 30, 50, 90, 100. -/
theorem ai_path_progress_monotone (env : Env)
    (h1 : env.clearvoiceImport = true) (h2 : env.modelLoadOk = true)
    (h3 : env.aiProcessOk = true) (h4 : env.aiOutExists = true) :
    ProgressMonotone (super_fast_writes env) ∧
    (super_fast_writes env).map Write.progress = [10, 20, 30, 50, 90, 100] := by
  have he : super_fast_writes env =
      [⟨.initializing, 10, "Initializing AI-powered processing..."⟩,
       ⟨.loading, 20, "Loading audio file..."⟩,
       ⟨.modelLoading, 30, "Loading AI model for speech enhancement..."⟩,
       ⟨.processing, 50, "Processing audio with AI model..."⟩,
       ⟨.saving, 90, "Saving AI-enhanced audio..."⟩,
       ⟨.complete, 100,
         "AI processing complete! Output: " ++ toString env.aiOutSize ++ " bytes"⟩] := by
    simp [super_fast_writes, h1, h2, h3, h4, verify_output]
  constructor
  · rw [ProgressMonotone, he]
    show List.Pairwise (· ≤ ·) [10, 20, 30, 50, 90]
    decide
  · rw [he]
    rfl

/-- Witness for C1 (amended) at the all-success environment. -/
theorem ai_path_progress_monotone_witness :
    ProgressMonotone (super_fast_writes envAI) ∧
    (super_fast_writes envAI).map Write.progress = [10, 20, 30, 50, 90, 100] :=
  ai_path_progress_monotone envAI rfl rfl rfl rfl

/-- If the pydub fallback reports success, none of its writes carries
stage `error`. -/
theorem pydub_no_error_of_success (env : Env)
    (h : pydub_fallback_success env = true) :
    ∀ w ∈ pydub_fallback_writes env, w.stage ≠ .error := by
  have henh := enhance_writes_processing env.enhanceSteps
  unfold pydub_fallback_success at h
  simp only [Bool.and_eq_true] at h
  obtain ⟨⟨⟨h1, h2⟩, h3⟩, h4⟩ := h
  intro w hw
  simp [pydub_fallback_writes, h1, h2, h3, h4, verify_output_fallback,
    List.mem_append, List.mem_cons] at hw
  casesm* _ ∨ _ <;>
  first
    | (intro hc; rw [henh w (by assumption)] at hc; cases hc)
    | (subst_vars; intro hc; cases hc)

/-- If the pydub fallback reports failure, it has written a stage
`error` record. -/
theorem pydub_error_write_of_failure (env : Env)
    (h : pydub_fallback_success env = false) :
    ∃ w ∈ pydub_fallback_writes env, w.stage = .error := by
  cases hpy : env.pydubImport with
  | false =>
    exact ⟨⟨.error, 0, "Audio processing library not available"⟩,
      by simp [pydub_fallback_writes, hpy], rfl⟩
  | true =>
    cases hld : env.audioLoadOk with
    | false =>
      exact ⟨⟨.error, 0, "Pydub fallback error"⟩,
        by simp [pydub_fallback_writes, hpy, hld], rfl⟩
    | true =>
      cases hex : env.exportOk with
      | false =>
        exact ⟨⟨.error, 0, "Pydub fallback error"⟩,
          by simp [pydub_fallback_writes, hpy, hld, hex, List.mem_append], rfl⟩
      | true =>
        have hfb : env.fbOutExists = false := by
          simpa [pydub_fallback_success, hpy, hld, hex] using h
        exact ⟨⟨.error, 0, "Output file not generated"⟩,
          by simp [pydub_fallback_writes, hpy, hld, hex, hfb, verify_output_fallback,
            List.mem_append], rfl⟩

/-- C4: whenever the primary AI collaborator fails — import failure,
model-load exception, or processing exception — the worker runs the
pydub fallback (its writes are a suffix of the worker's, after an
error-free prefix), reports the fallback's own outcome, and a stage
`error` record appears exactly when the fallback has also failed. -/
theorem primary_failure_uses_fallback (env : Env)
    (h : env.clearvoiceImport = false ∨ env.modelLoadOk = false ∨
      env.aiProcessOk = false) :
    (∃ pre : List Write, super_fast_writes env = pre ++ pydub_fallback_writes env ∧
        ∀ w ∈ pre, w.stage ≠ .error) ∧
    super_fast_success env = pydub_fallback_success env ∧
    (∀ w ∈ super_fast_writes env, w.stage = .error →
      pydub_fallback_success env = false) ∧
    (pydub_fallback_success env = false →
      ∃ w ∈ super_fast_writes env, w.stage = .error) := by
  obtain ⟨pre, hpre, herr⟩ :
      ∃ pre : List Write, super_fast_writes env = pre ++ pydub_fallback_writes env ∧
        ∀ w ∈ pre, w.stage ≠ .error := by
    rcases h with hc | hm | ha
    · exact ⟨[⟨.initializing, 10, "Initializing AI-powered processing..."⟩],
        by simp [super_fast_writes, hc], by decide⟩
    · cases hc : env.clearvoiceImport with
      | false =>
        exact ⟨[⟨.initializing, 10, "Initializing AI-powered processing..."⟩],
          by simp [super_fast_writes, hc], by decide⟩
      | true =>
        exact ⟨[⟨.initializing, 10, "Initializing AI-powered processing..."⟩,
            ⟨.loading, 20, "Loading audio file..."⟩,
            ⟨.modelLoading, 30, "Loading AI model for speech enhancement..."⟩],
          by simp [super_fast_writes, hc, hm], by decide⟩
    · cases hc : env.clearvoiceImport with
      | false =>
        exact ⟨[⟨.initializing, 10, "Initializing AI-powered processing..."⟩],
          by simp [super_fast_writes, hc], by decide⟩
      | true =>
        cases hm : env.modelLoadOk with
        | false =>
          exact ⟨[⟨.initializing, 10, "Initializing AI-powered processing..."⟩,
              ⟨.loading, 20, "Loading audio file..."⟩,
              ⟨.modelLoading, 30, "Loading AI model for speech enhancement..."⟩],
            by simp [super_fast_writes, hc, hm], by decide⟩
        | true =>
          exact ⟨[⟨.initializing, 10, "Initializing AI-powered processing..."⟩,
              ⟨.loading, 20, "Loading audio file..."⟩,
              ⟨.modelLoading, 30, "Loading AI model for speech enhancement..."⟩,
              ⟨.processing, 50, "Processing audio with AI model..."⟩],
            by simp [super_fast_writes, hc, hm, ha], by decide⟩
  have hsucc : super_fast_success env = pydub_fallback_success env := by
    rcases h with hc | hm | ha
    · simp [super_fast_success, hc]
    · simp [super_fast_success, hm]
    · simp [super_fast_success, ha]
  refine ⟨⟨pre, hpre, herr⟩, hsucc, ?_, ?_⟩
  · intro w hw hwerr
    cases hsb : pydub_fallback_success env with
    | false => rfl
    | true =>
      exfalso
      rw [hpre] at hw
      rcases List.mem_append.mp hw with hmem | hmem
      · exact herr w hmem hwerr
      · exact pydub_no_error_of_success env hsb w hmem hwerr
  · intro hf
    obtain ⟨w, hwmem, hwerr⟩ := pydub_error_write_of_failure env hf
    exact ⟨w, by rw [hpre]; exact List.mem_append_right _ hwmem, hwerr⟩

/-- The environment of a run whose ClearerVoice import fails and whose
pydub fallback succeeds. -/
def envC4 : Env where
  saveOk := true
  clearvoiceImport := false
  modelLoadOk := true
  aiProcessOk := true
  aiOutExists := true
  aiOutSize := 0
  pydubImport := true
  audioLoadOk := true
  enhanceSteps := 6
  exportOk := true
  fbOutExists := true
  fbOutSize := 900
  bgCrash := false

/-- Witness for C4: a failed ClearerVoice import hands the job to the
fallback. -/
theorem primary_failure_uses_fallback_witness :
    (∃ pre : List Write, super_fast_writes envC4 = pre ++ pydub_fallback_writes envC4 ∧
        ∀ w ∈ pre, w.stage ≠ .error) ∧
    super_fast_success envC4 = pydub_fallback_success envC4 ∧
    (∀ w ∈ super_fast_writes envC4, w.stage = .error →
      pydub_fallback_success envC4 = false) ∧
    (pydub_fallback_success envC4 = false →
      ∃ w ∈ super_fast_writes envC4, w.stage = .error) :=
  primary_failure_uses_fallback envC4 (Or.inl rfl)

end VoiceEnhancer
